import Mathlib

/-!
Shallow embedding of the `monitor` poll loop and `load_config` from
`src/motion/core.py` of the systemd-motion repository, together with
theorems settling the spec claims about them.

Modelling conventions:
* Wall-clock times (`time.time()`) are rationals.
* The result of one D-Bus query `get_logind_idle_hint` is an
  `Option Bool` (`none` = query failed / unavailable), delivered to each
  tick as part of its `TickInput`; that function catches every exception
  internally and returns `None`, so it never raises.
* The result of `simulate_user_activity_session` (which likewise catches
  all exceptions and returns a bool) is the `simOk` field of the input.
* An unexpected exception inside the loop body (realistically, one of the
  `logger.*` calls in the `try:` block) is modelled by an optional fault
  point index: `some k` raises just before effectful operation `k` of the
  iteration, skipping the rest of the body; the surrounding
  `except Exception` arm appends a `monitorError` log event and the loop
  continues with the next tick.
-/

namespace Motion

/-- Python `int()` applied to a rational: truncation toward zero
(models `int(now)` at line 143 of core.py). -/
def pyInt (q : ℚ) : ℤ := if q < 0 then -((-q).floor) else q.floor

/-- The three configuration values the monitor extracts at startup
(lines 91-93 of core.py): `int(config.get("idle_minutes", 10))`,
`int(config.get("simulate_after_minutes", 5))`,
`bool(config.get("simulate_activity", False))`. -/
structure Config where
  idle_minutes : ℤ
  simulate_after_minutes : ℤ
  simulate_activity : Bool
deriving DecidableEq

/-- The mutable loop state of `monitor` (lines 107-108 of core.py):
`last_idle_state: Optional[bool]` and `idle_since: Optional[float]`. -/
structure TrackerState where
  last_idle_state : Option Bool
  idle_since : Option ℚ
deriving DecidableEq

/-- Initial state at loop entry: `last_idle_state = None`,
`idle_since = None`. -/
def initState : TrackerState := ⟨none, none⟩

/-- The environment's contribution to one loop iteration: the query
result (`none` = `get_logind_idle_hint` returned `None`), the value of
`time.time()`, and the result the screensaver call would return if made. -/
structure TickInput where
  idle_hint : Option Bool
  now : ℚ
  simOk : Bool
deriving DecidableEq

/-- The distinct log emissions of the loop body, by call site:
`logger.warning("Session idle detected")` (line 130),
`logger.error("Activity simulation failed")` (line 138),
`logger.warning("Session monitor running (no D-Bus)")` (line 144),
`logger.error(f"Monitor error: ...")` in the `except` arm (line 147). -/
inductive LogEvent where
  | sessionIdle
  | simFailed
  | noDbusStatus
  | monitorError
deriving DecidableEq

/-- Everything one iteration produces: the state after it, the log events
it emitted in order, the times at which it called
`simulate_user_activity_session`, and whether its body raised. -/
structure TickResult where
  state : TrackerState
  events : List LogEvent
  sims : List ℚ
  faulted : Bool
deriving DecidableEq

/-- Lines 133-140 of core.py: the activity-simulation branch, entered
after the idle-hint bookkeeping.  `st` is the tracker state after lines
119-131, `evs` the events already emitted this tick.  Fault point 2 is
the `logger.error("Activity simulation failed")` call; note that the
`idle_since = now` reset at line 140 runs unconditionally after the
(possible) error log. -/
def simPart (cfg : Config) (sessionBus : Bool) (st : TrackerState)
    (inp : TickInput) (faultAt : Option ℕ) (evs : List LogEvent)
    (idle_hint : Bool) : TickResult :=
  if idle_hint ∧ cfg.simulate_activity ∧ sessionBus then
    let dur : ℚ :=
      match st.idle_since with
      | some t => (inp.now - t) / 60
      | none => 0
    if (cfg.simulate_after_minutes : ℚ) ≤ dur then
      if inp.simOk then
        ⟨⟨st.last_idle_state, some inp.now⟩, evs, [inp.now], false⟩
      else
        if faultAt = some 2 then
          ⟨st, evs, [inp.now], true⟩
        else
          ⟨⟨st.last_idle_state, some inp.now⟩, evs ++ [.simFailed],
            [inp.now], false⟩
    else ⟨st, evs, [], false⟩
  else ⟨st, evs, [], false⟩

/-- The body of one `while True` iteration of `monitor`
(lines 112-144 of core.py), with fault injection.  Fault point 0 is the
top of the body, fault point 1 the `logger.warning("Session idle
detected")` call (note: it precedes the `last_idle_state = idle_hint`
assignment), fault point 3 the periodic no-D-Bus status log. -/
def tickE (cfg : Config) (sessionBus : Bool) (s : TrackerState)
    (inp : TickInput) (faultAt : Option ℕ) : TickResult :=
  if faultAt = some 0 then ⟨s, [], [], true⟩
  else
    match inp.idle_hint with
    | some idle_hint =>
      let idle_since1 : Option ℚ :=
        if idle_hint then
          match s.idle_since with
          | none => some inp.now
          | some t => some t
        else none
      if s.last_idle_state ≠ some idle_hint then
        if idle_hint then
          if faultAt = some 1 then
            ⟨⟨s.last_idle_state, idle_since1⟩, [], [], true⟩
          else
            simPart cfg sessionBus ⟨some idle_hint, idle_since1⟩ inp faultAt
              [.sessionIdle] idle_hint
        else
          simPart cfg sessionBus ⟨some idle_hint, idle_since1⟩ inp faultAt
            [] idle_hint
      else
        simPart cfg sessionBus ⟨s.last_idle_state, idle_since1⟩ inp faultAt
          [] idle_hint
    | none =>
      if pyInt inp.now % 300 = 0 then
        if faultAt = some 3 then ⟨s, [], [], true⟩
        else ⟨s, [.noDbusStatus], [], false⟩
      else ⟨s, [], [], false⟩

/-- One full iteration including the `except Exception` arm at lines
146-147: a fault is caught at the tick boundary and logged as
`Monitor error`, and the partial state mutations made before the raise
are kept (Python state mutation is in place). -/
def runTick (cfg : Config) (sessionBus : Bool) (s : TrackerState)
    (inp : TickInput) (faultAt : Option ℕ) : TickResult :=
  let r := tickE cfg sessionBus s inp faultAt
  if r.faulted then ⟨r.state, r.events ++ [.monitorError], r.sims, true⟩
  else r

/-- One iteration with no injected fault (the normal path). -/
def tick (cfg : Config) (sessionBus : Bool) (s : TrackerState)
    (inp : TickInput) : TickResult :=
  runTick cfg sessionBus s inp none

/-- The poll loop run over a finite schedule of tick inputs (each with an
optional fault point); the list ends where the external shutdown signal
arrives.  Returns the per-iteration results in order. -/
def runTicks (cfg : Config) (sessionBus : Bool) :
    TrackerState → List (TickInput × Option ℕ) → List TickResult
  | _, [] => []
  | s, (inp, f) :: rest =>
    let r := runTick cfg sessionBus s inp f
    r :: runTicks cfg sessionBus r.state rest

/-- The poll loop run over a fault-free schedule. -/
def runClean (cfg : Config) (sessionBus : Bool) (s : TrackerState)
    (inps : List TickInput) : List TickResult :=
  runTicks cfg sessionBus s (inps.map fun i => (i, none))

/-- All log events of a run, in order. -/
def runEvents (rs : List TickResult) : List LogEvent :=
  (rs.map (·.events)).flatten

/-- All simulate-activity call times of a run, in order. -/
def runSims (rs : List TickResult) : List ℚ :=
  (rs.map (·.sims)).flatten

/-- The tracker state after a run that started in `s`. -/
def finalState : TrackerState → List TickResult → TrackerState
  | s, [] => s
  | _, r :: rs => finalState r.state rs

/-- The most recent successful sample of an input schedule (the latest
`idle_hint` that is not `none`). -/
def lastSample (inps : List TickInput) : Option Bool :=
  inps.foldl (fun m i => match i.idle_hint with | none => m | some h => some h)
    none

/-- Number of `sessionIdle` (idle-transition) events in a list. -/
def countIdle : List LogEvent → ℕ
  | [] => 0
  | e :: es => (if e = LogEvent.sessionIdle then 1 else 0) + countIdle es

/-- Number of contiguous runs of `true` in a sample sequence, given the
value of the previous sample (`none` = no previous sample). -/
def trueRunsAux (p : Option Bool) : List Bool → ℕ
  | [] => 0
  | b :: rest =>
    (if b = true ∧ p ≠ some true then 1 else 0) + trueRunsAux (some b) rest

/-- Number of contiguous runs of `true` in a sample sequence. -/
def trueRuns (l : List Bool) : ℕ := trueRunsAux none l

/-- A successful sample delivered to a tick: idle value, time, and the
result a simulate call would return. -/
def mkSample (x : Bool × ℚ × Bool) : TickInput := ⟨some x.1, x.2.1, x.2.2⟩

/-- A stream of continuously-idle samples polled at a fixed interval `δ`
beginning at time `t`; `oks` gives the result of each simulate call that
may occur. -/
def idleStream (δ : ℚ) : ℚ → List Bool → List TickInput
  | _, [] => []
  | t, ok :: rest => ⟨some true, t, ok⟩ :: idleStream δ (t + δ) rest

/-! ### Configuration loading (`load_config`, lines 24-35 of core.py) -/

/-- A JSON value as far as the configuration is concerned. -/
inductive JVal where
  | num (n : ℤ)
  | bool (b : Bool)
  | str (s : String)
  | null
deriving DecidableEq

/-- The observable state of the config file at
`~/.config/systemd-motion/behavior.json`: absent
(`config_path.exists()` false), present but `read_text()` raises,
present but `json.loads` raises, or present with valid JSON content. -/
inductive ConfigFile where
  | missing
  | unreadable
  | malformed
  | valid (d : List (String × JVal))
deriving DecidableEq

/-- The default dict returned at lines 31-35 of core.py. -/
def defaultConfigDict : List (String × JVal) :=
  [("idle_minutes", .num 10), ("simulate_after_minutes", .num 5),
   ("simulate_activity", .bool false)]

/-- `load_config` (lines 24-35 of core.py): if the file exists, try to
parse it, and on any exception fall through (`except Exception: pass`)
to the default dict; if it does not exist, return the default dict. -/
def load_config : ConfigFile → List (String × JVal)
  | .missing => defaultConfigDict
  | .unreadable => defaultConfigDict
  | .malformed => defaultConfigDict
  | .valid d => d

/-- Python `dict.get` on the modelled JSON object. -/
def dictGet (d : List (String × JVal)) (k : String) : Option JVal :=
  (d.find? fun p => p.1 = k).map (·.2)

/-! ### Helper lemmas about single ticks -/

theorem tick_none_eq (cfg : Config) (sb : Bool) (s : TrackerState)
    (now : ℚ) (ok : Bool) :
    tick cfg sb s ⟨none, now, ok⟩ =
      ⟨s, if pyInt now % 300 = 0 then [.noDbusStatus] else [], [], false⟩ := by
  by_cases h : pyInt now % 300 = 0 <;>
    simp [tick, runTick, tickE, h]

theorem simPart_last (cfg : Config) (sb : Bool) (st : TrackerState)
    (inp : TickInput) (f : Option ℕ) (evs : List LogEvent) (h : Bool) :
    (simPart cfg sb st inp f evs h).state.last_idle_state =
      st.last_idle_state := by
  unfold simPart
  dsimp only
  repeat' split
  all_goals rfl

theorem simPart_idle_since_isSome (cfg : Config) (sb : Bool)
    (st : TrackerState) (inp : TickInput) (f : Option ℕ)
    (evs : List LogEvent) (h : Bool) (hs : st.idle_since.isSome) :
    (simPart cfg sb st inp f evs h).state.idle_since.isSome := by
  unfold simPart
  dsimp only
  repeat' split
  all_goals first | rfl | exact hs

theorem simPart_sims_of_not_enabled (cfg : Config) (sb : Bool)
    (st : TrackerState) (inp : TickInput) (f : Option ℕ)
    (evs : List LogEvent) (h : Bool) (hn : cfg.simulate_activity = false) :
    (simPart cfg sb st inp f evs h).sims = [] := by
  unfold simPart
  rw [if_neg]
  simp [hn]

theorem simPart_none_not_faulted (cfg : Config) (sb : Bool)
    (st : TrackerState) (inp : TickInput) (evs : List LogEvent) (h : Bool) :
    (simPart cfg sb st inp none evs h).faulted = false := by
  unfold simPart
  dsimp only
  repeat' split
  all_goals simp_all

theorem simPart_none_eq (cfg : Config) (sb : Bool) (st : TrackerState)
    (inp : TickInput) (evs : List LogEvent) (h : Bool) :
    simPart cfg sb st inp none evs h =
      if h ∧ cfg.simulate_activity ∧ sb then
        if (cfg.simulate_after_minutes : ℚ) ≤
            (match st.idle_since with
             | some t => (inp.now - t) / 60
             | none => 0) then
          ⟨⟨st.last_idle_state, some inp.now⟩,
            evs ++ (if inp.simOk then [] else [.simFailed]), [inp.now], false⟩
        else ⟨st, evs, [], false⟩
      else ⟨st, evs, [], false⟩ := by
  unfold simPart
  dsimp only
  repeat' split
  all_goals simp_all

theorem tickE_some_eq (cfg : Config) (sb : Bool) (s : TrackerState)
    (h : Bool) (now : ℚ) (ok : Bool) :
    tickE cfg sb s ⟨some h, now, ok⟩ none =
      simPart cfg sb
        ⟨some h, if h then some (s.idle_since.getD now) else none⟩
        ⟨some h, now, ok⟩ none
        (if h = true ∧ s.last_idle_state ≠ some h then [.sessionIdle] else [])
        h := by
  unfold tickE
  dsimp only
  by_cases hl : s.last_idle_state = some h <;>
    cases hs : s.idle_since <;> cases h <;> simp [hl, hs]

theorem tick_some_eq (cfg : Config) (sb : Bool) (s : TrackerState)
    (h : Bool) (now : ℚ) (ok : Bool) :
    tick cfg sb s ⟨some h, now, ok⟩ =
      simPart cfg sb
        ⟨some h, if h then some (s.idle_since.getD now) else none⟩
        ⟨some h, now, ok⟩ none
        (if h = true ∧ s.last_idle_state ≠ some h then [.sessionIdle] else [])
        h := by
  unfold tick runTick
  rw [tickE_some_eq]
  rw [if_neg]
  rw [simPart_none_not_faulted]
  simp

theorem countIdle_append (a b : List LogEvent) :
    countIdle (a ++ b) = countIdle a + countIdle b := by
  induction a with
  | nil => simp [countIdle]
  | cons e es ih => simp [countIdle, ih]; ring

theorem runClean_cons (cfg : Config) (sb : Bool) (s : TrackerState)
    (i : TickInput) (l : List TickInput) :
    runClean cfg sb s (i :: l) =
      tick cfg sb s i :: runClean cfg sb (tick cfg sb s i).state l := by
  simp [runClean, runTicks, tick]

theorem runEvents_cons (r : TickResult) (rs : List TickResult) :
    runEvents (r :: rs) = r.events ++ runEvents rs := by
  simp [runEvents]

theorem runSims_cons (r : TickResult) (rs : List TickResult) :
    runSims (r :: rs) = r.sims ++ runSims rs := by
  simp [runSims]

theorem simPart_countIdle (cfg : Config) (sb : Bool) (st : TrackerState)
    (inp : TickInput) (f : Option ℕ) (evs : List LogEvent) (h : Bool) :
    countIdle (simPart cfg sb st inp f evs h).events = countIdle evs := by
  unfold simPart
  dsimp only
  repeat' split
  all_goals simp [countIdle_append, countIdle]

theorem tick_some_last (cfg : Config) (sb : Bool) (s : TrackerState)
    (h : Bool) (now : ℚ) (ok : Bool) :
    (tick cfg sb s ⟨some h, now, ok⟩).state.last_idle_state = some h := by
  rw [tick_some_eq, simPart_last]

theorem tick_countIdle (cfg : Config) (sb : Bool) (s : TrackerState)
    (h : Bool) (now : ℚ) (ok : Bool) :
    countIdle (tick cfg sb s ⟨some h, now, ok⟩).events =
      if h = true ∧ s.last_idle_state ≠ some true then 1 else 0 := by
  rw [tick_some_eq, simPart_countIdle]
  cases h with
  | false => simp [countIdle]
  | true =>
    by_cases hp : s.last_idle_state = some true <;> simp [hp, countIdle]

theorem tick_true_sim (cfg : Config) (sb : Bool) (s : TrackerState)
    (t0 now : ℚ) (ok : Bool) (hs : s.idle_since = some t0)
    (hc : cfg.simulate_activity = true) (hb : sb = true)
    (hth : (cfg.simulate_after_minutes : ℚ) ≤ (now - t0) / 60) :
    (tick cfg sb s ⟨some true, now, ok⟩).state.idle_since = some now ∧
    (tick cfg sb s ⟨some true, now, ok⟩).sims = [now] ∧
    (tick cfg sb s ⟨some true, now, ok⟩).events =
      (if s.last_idle_state ≠ some true then [LogEvent.sessionIdle] else [])
        ++ (if ok then [] else [LogEvent.simFailed]) := by
  subst hb
  rw [tick_some_eq, simPart_none_eq]
  simp [hs, hc, hth]

theorem tick_true_nosim (cfg : Config) (sb : Bool) (s : TrackerState)
    (t0 now : ℚ) (ok : Bool) (hs : s.idle_since = some t0)
    (hn : ¬(cfg.simulate_activity = true ∧ sb = true ∧
        (cfg.simulate_after_minutes : ℚ) ≤ (now - t0) / 60)) :
    (tick cfg sb s ⟨some true, now, ok⟩).state.idle_since = some t0 ∧
    (tick cfg sb s ⟨some true, now, ok⟩).sims = [] := by
  rw [tick_some_eq, simPart_none_eq]
  by_cases hc : cfg.simulate_activity = true
  · by_cases hb : sb = true
    · have hth : ¬((cfg.simulate_after_minutes : ℚ) ≤ (now - t0) / 60) :=
        fun hth => hn ⟨hc, hb, hth⟩
      simp [hs, hc, hb, hth]
    · simp [hs, hb]
  · simp [hs, hc]

theorem simPart_state_of_false (cfg : Config) (sb : Bool)
    (st : TrackerState) (inp : TickInput) (f : Option ℕ)
    (evs : List LogEvent) :
    (simPart cfg sb st inp f evs false).state = st := by
  unfold simPart
  rw [if_neg]
  simp

theorem tickE_sims_of_not_enabled (cfg : Config) (sb : Bool)
    (s : TrackerState) (inp : TickInput) (f : Option ℕ)
    (hn : cfg.simulate_activity = false) :
    (tickE cfg sb s inp f).sims = [] := by
  unfold tickE
  dsimp only
  repeat' split
  all_goals first
    | rfl
    | exact simPart_sims_of_not_enabled _ _ _ _ _ _ _ hn

theorem runTick_sims (cfg : Config) (sb : Bool) (s : TrackerState)
    (inp : TickInput) (f : Option ℕ) :
    (runTick cfg sb s inp f).sims = (tickE cfg sb s inp f).sims := by
  unfold runTick
  dsimp only
  split <;> rfl

theorem runTick_faulted_last (cfg : Config) (sb : Bool) (s : TrackerState)
    (inp : TickInput) (f : Option ℕ) :
    (runTick cfg sb s inp f).faulted = true →
      (runTick cfg sb s inp f).events.getLast? = some .monitorError := by
  unfold runTick
  dsimp only
  split
  · intro
    simp
  · intro hf
    simp_all

theorem runTicks_cons (cfg : Config) (sb : Bool) (s : TrackerState)
    (i : TickInput) (f : Option ℕ) (rest : List (TickInput × Option ℕ)) :
    runTicks cfg sb s ((i, f) :: rest) =
      runTick cfg sb s i f ::
        runTicks cfg sb (runTick cfg sb s i f).state rest := by
  simp [runTicks]

/-- The state invariant behind C2, generalised over the starting state and
the summary of the most recent sample seen before it. -/
theorem idle_since_invariant_aux (cfg : Config) (sb : Bool) :
    ∀ (l : List TickInput) (s : TrackerState) (m : Option Bool),
      (s.idle_since ≠ none ↔ m = some true) →
      ((finalState s (runClean cfg sb s l)).idle_since ≠ none ↔
        l.foldl (fun m i =>
          match i.idle_hint with | none => m | some h => some h) m =
          some true) := by
  intro l
  induction l with
  | nil =>
    intro s m hm
    simpa [runClean, runTicks, finalState] using hm
  | cons i rest ih =>
    intro s m hm
    obtain ⟨hint, now, ok⟩ := i
    rw [runClean_cons, finalState]
    cases hint with
    | none =>
      rw [tick_none_eq]
      exact ih s m hm
    | some h =>
      cases h with
      | true =>
        refine ih _ (some true) ?_
        have hss : (tick cfg sb s ⟨some true, now, ok⟩).state.idle_since.isSome := by
          rw [tick_some_eq]
          exact simPart_idle_since_isSome _ _ _ _ _ _ _ (by simp)
        rw [Option.isSome_iff_ne_none] at hss
        simp [hss]
      | false =>
        refine ih _ (some false) ?_
        rw [tick_some_eq]
        simp only [Bool.false_eq_true, if_neg]
        rw [simPart_state_of_false]
        simp

/-- The transition-count invariant behind C3, generalised over the
starting state. -/
theorem countIdle_run_aux (cfg : Config) (sb : Bool) :
    ∀ (l : List (Bool × ℚ × Bool)) (s : TrackerState),
      countIdle (runEvents (runClean cfg sb s (l.map mkSample))) =
        trueRunsAux s.last_idle_state (l.map (·.1)) := by
  intro l
  induction l with
  | nil =>
    intro s
    rfl
  | cons x rest ih =>
    intro s
    obtain ⟨b, t, ok⟩ := x
    simp only [List.map_cons, mkSample]
    rw [runClean_cons, runEvents_cons, countIdle_append]
    rw [tick_countIdle, ih, tick_some_last, trueRunsAux]

theorem idleStream_hint (δ : ℚ) :
    ∀ (t : ℚ) (oks : List Bool), ∀ i ∈ idleStream δ t oks,
      i.idle_hint = some true := by
  intro t oks
  induction oks generalizing t with
  | nil =>
    intro i hi
    simp [idleStream] at hi
  | cons ok rest ih =>
    intro i hi
    rw [idleStream] at hi
    rcases List.mem_cons.mp hi with h | h
    · subst h
      rfl
    · exact ih (t + δ) i h

/-- First idle tick from a state with no pending idle period: the idle
timestamp is set to the tick time and, for a positive delay threshold, no
simulate call occurs (elapsed idle time is zero). -/
theorem tick_true_start (cfg : Config) (sb : Bool) (s : TrackerState)
    (now : ℚ) (ok : Bool) (hs : s.idle_since = none)
    (hm : 0 < (cfg.simulate_after_minutes : ℚ)) :
    (tick cfg sb s ⟨some true, now, ok⟩).state.idle_since = some now ∧
    (tick cfg sb s ⟨some true, now, ok⟩).sims = [] := by
  rw [tick_some_eq, simPart_none_eq]
  have h0 : ¬(cfg.simulate_after_minutes ≤ (0 : ℤ)) := by
    rw [not_le]
    exact_mod_cast hm
  simp [hs, h0]

/-- The delay-window invariant behind C4: over any all-idle input stream
started from a state whose idle period began at `t0`, every simulate
call happens at least `60 * simulate_after_minutes` seconds after the
pending `idle_since`, and consecutive calls are at least that far apart
(the window restarts at each call since line 140 resets `idle_since`). -/
theorem sims_chain_aux (cfg : Config) (sb : Bool) :
    ∀ (l : List TickInput) (s : TrackerState) (t0 : ℚ),
      (∀ i ∈ l, i.idle_hint = some true) →
      s.idle_since = some t0 →
      (∀ c ∈ (runSims (runClean cfg sb s l)).head?,
          t0 + 60 * (cfg.simulate_after_minutes : ℚ) ≤ c) ∧
      (runSims (runClean cfg sb s l)).Chain'
        (fun a b => a + 60 * (cfg.simulate_after_minutes : ℚ) ≤ b) := by
  intro l
  induction l with
  | nil =>
    intro s t0 _ _
    constructor
    · intro c hc
      simp [runClean, runTicks, runSims] at hc
    · simp [runClean, runTicks, runSims]
  | cons i rest ih =>
    intro s t0 hall hs
    obtain ⟨hint, now, ok⟩ := i
    have hh : hint = some true := hall _ (List.mem_cons_self _ _)
    subst hh
    have hrest : ∀ j ∈ rest, j.idle_hint = some true :=
      fun j hj => hall j (List.mem_cons_of_mem _ hj)
    rw [runClean_cons, runSims_cons]
    by_cases hcond : cfg.simulate_activity = true ∧ sb = true ∧
        (cfg.simulate_after_minutes : ℚ) ≤ (now - t0) / 60
    · obtain ⟨hc, hb, hth⟩ := hcond
      obtain ⟨hst, hsims, -⟩ := tick_true_sim cfg sb s t0 now ok hs hc hb hth
      rw [hsims]
      have ihr := ih (tick cfg sb s ⟨some true, now, ok⟩).state now hrest hst
      have hnow : t0 + 60 * (cfg.simulate_after_minutes : ℚ) ≤ now := by
        rw [le_div_iff₀ (by norm_num : (0:ℚ) < 60)] at hth
        linarith
      constructor
      · intro c hc2
        simp only [List.singleton_append, List.head?_cons,
          Option.mem_def, Option.some.injEq] at hc2
        subst hc2
        exact hnow
      · rw [List.singleton_append, List.chain'_cons']
        exact ⟨fun b hb2 => ihr.1 b hb2, ihr.2⟩
    · obtain ⟨hst, hsims⟩ := tick_true_nosim cfg sb s t0 now ok hs hcond
      rw [hsims, List.nil_append]
      exact ih _ t0 hrest hst

/-! ### The claims -/

/-- C1 (counterexample): the claim says that on a tick where the
simulate threshold is crossed and the `simulate_activity()` call fails,
`idle_since` keeps its original value.  Refutation at a concrete input:
configuration `(10, 2, true)`, state
`last_idle_state = some true, idle_since = some 0`, a tick at
`now = 120` reporting idle with a failing simulate call.  The threshold
is crossed (`(120 - 0)/60 = 2 ≥ 2`): the call is made (`sims = [120]`),
it fails and the failure is logged (`events = [simFailed]`), yet
`idle_since` is reset to `some 120` instead of staying `some 0` —
line 140 of core.py resets the timer unconditionally. -/
theorem C1_counterexample :
    (tick ⟨10, 2, true⟩ true ⟨some true, some 0⟩
        ⟨some true, 120, false⟩).sims = [120] ∧
    (tick ⟨10, 2, true⟩ true ⟨some true, some 0⟩
        ⟨some true, 120, false⟩).events = [LogEvent.simFailed] ∧
    (tick ⟨10, 2, true⟩ true ⟨some true, some 0⟩
        ⟨some true, 120, false⟩).state.idle_since = some 120 := by
  refine ⟨?_, ?_, ?_⟩ <;>
  · rw [tick_some_eq, simPart_none_eq]
    norm_num

/-- C1 (amended): on every poll tick on which the simulate-activity
threshold is crossed, the tracker's `idle_since` is reset to the current
tick time regardless of whether the `simulate_activity()` call succeeds
or fails; on failure an error event is additionally logged.  (So a
persistently failing call is re-attempted only a full `simulate_delay`
window later, not on the next tick.) -/
theorem C1_amended_reset_even_on_failure (cfg : Config) (sb : Bool)
    (s : TrackerState) (t0 now : ℚ) (ok : Bool)
    (hc : cfg.simulate_activity = true) (hb : sb = true)
    (hs : s.idle_since = some t0)
    (hth : (cfg.simulate_after_minutes : ℚ) ≤ (now - t0) / 60) :
    (tick cfg sb s ⟨some true, now, ok⟩).state.idle_since = some now ∧
    (tick cfg sb s ⟨some true, now, ok⟩).sims = [now] ∧
    (ok = false →
      LogEvent.simFailed ∈ (tick cfg sb s ⟨some true, now, ok⟩).events) := by
  obtain ⟨h1, h2, h3⟩ := tick_true_sim cfg sb s t0 now ok hs hc hb hth
  refine ⟨h1, h2, fun hok => ?_⟩
  rw [h3, hok]
  simp

/-- C1 (witness for the amended theorem). -/
theorem C1_amended_witness :
    (tick ⟨10, 2, true⟩ true ⟨some true, some 0⟩
        ⟨some true, 120, false⟩).state.idle_since = some 120 ∧
    (tick ⟨10, 2, true⟩ true ⟨some true, some 0⟩
        ⟨some true, 120, false⟩).sims = [120] ∧
    (false = false →
      LogEvent.simFailed ∈ (tick ⟨10, 2, true⟩ true ⟨some true, some 0⟩
        ⟨some true, 120, false⟩).events) :=
  C1_amended_reset_even_on_failure ⟨10, 2, true⟩ true ⟨some true, some 0⟩
    0 120 false rfl rfl rfl (by norm_num)

/-- C2: starting from the initial tracker state, after any sequence of
poll ticks `idle_since` is non-`none` if and only if the most recent
tick that produced a sample reported idle; before any sample is
observed it is `none`. -/
theorem C2_idle_since_invariant (cfg : Config) (sb : Bool)
    (l : List TickInput) :
    ((finalState initState (runClean cfg sb initState l)).idle_since ≠ none
      ↔ lastSample l = some true) := by
  have h := idle_since_invariant_aux cfg sb l initState none (by simp [initState])
  simpa [lastSample] using h

/-- C3: over any finite stream of successful samples fed from the
initial state, the number of idle-transition (`sessionIdle`) log events
equals the number of contiguous runs of `true` samples; and a tick whose
sample is active emits no log event at all while still updating
`last_idle_state`. -/
theorem C3_one_idle_log_per_run (cfg : Config) (sb : Bool)
    (l : List (Bool × ℚ × Bool)) :
    countIdle (runEvents (runClean cfg sb initState (l.map mkSample))) =
      trueRuns (l.map (·.1)) ∧
    ∀ (s : TrackerState) (t : ℚ) (ok : Bool),
      (tick cfg sb s ⟨some false, t, ok⟩).events = [] ∧
      (tick cfg sb s ⟨some false, t, ok⟩).state.last_idle_state =
        some false := by
  constructor
  · exact countIdle_run_aux cfg sb l initState
  · intro s t ok
    constructor
    · rw [tick_some_eq, simPart_none_eq]
      simp
    · exact tick_some_last cfg sb s false t ok

/-- C4: with `simulate_after_minutes = 2` and simulation enabled, on a
continuously-idle stream polled at fixed interval `δ` starting at
`t = 0`, the first `simulate_activity()` call happens at or after
`t = 120` seconds, and each subsequent call at least 120 seconds after
the previous one (the delay window restarts from the call time, not
from the original idle start). -/
theorem C4_simulate_delay_window (cfg : Config)
    (hm : cfg.simulate_after_minutes = 2)
    (he : cfg.simulate_activity = true) (δ : ℚ) (oks : List Bool) :
    (∀ c ∈ (runSims (runClean cfg true initState
        (idleStream δ 0 oks))).head?, 120 ≤ c) ∧
    (runSims (runClean cfg true initState
        (idleStream δ 0 oks))).Chain' (fun a b => a + 120 ≤ b) := by
  have h120 : 60 * (cfg.simulate_after_minutes : ℚ) = 120 := by
    rw [hm]
    norm_num
  cases oks with
  | nil =>
    constructor
    · intro c hc
      simp [idleStream, runClean, runTicks, runSims] at hc
    · simp [idleStream, runClean, runTicks, runSims]
  | cons ok rest =>
    rw [idleStream, runClean_cons]
    obtain ⟨hst, hsims⟩ := tick_true_start cfg true initState 0 ok rfl
      (by rw [hm]; norm_num)
    rw [runSims_cons, hsims, List.nil_append]
    have haux := sims_chain_aux cfg true (idleStream δ (0 + δ) rest)
      (tick cfg true initState ⟨some true, 0, ok⟩).state 0
      (idleStream_hint δ (0 + δ) rest) hst
    constructor
    · intro c hc
      have := haux.1 c hc
      rw [h120] at this
      linarith
    · refine haux.2.imp ?_
      intro a b hab
      rw [h120] at hab
      exact hab

/-- C4 (witness): instantiation at the concrete configuration
`(5, 2, true)` with a 30-second poll interval and nine consecutive
idle ticks, all simulate calls succeeding. -/
theorem C4_witness :
    (∀ c ∈ (runSims (runClean ⟨5, 2, true⟩ true initState
        (idleStream 30 0 [true, true, true, true, true, true, true,
          true, true]))).head?, 120 ≤ c) ∧
    (runSims (runClean ⟨5, 2, true⟩ true initState
        (idleStream 30 0 [true, true, true, true, true, true, true,
          true, true]))).Chain' (fun a b => a + 120 ≤ b) :=
  C4_simulate_delay_window ⟨5, 2, true⟩ rfl rfl 30
    [true, true, true, true, true, true, true, true, true]

/-- C5: a tick whose query failed (no sample) leaves the whole tracker
state — both `idle_since` and `last_idle_state` — unchanged and makes no
simulate call. -/
theorem C5_query_failure_frame (cfg : Config) (sb : Bool)
    (s : TrackerState) (now : ℚ) (ok : Bool) :
    (tick cfg sb s ⟨none, now, ok⟩).state = s ∧
    (tick cfg sb s ⟨none, now, ok⟩).sims = [] := by
  rw [tick_none_eq]
  exact ⟨rfl, rfl⟩

/-- C6 (counterexample): the claim says every failed-query tick logs the
fault.  Refutation at a concrete input: a failed-query tick at
`now = 1` (where `int(1) % 300 = 1 ≠ 0`) emits no log event at all —
lines 141-144 of core.py log only when `int(now) % 300 == 0`. -/
theorem C6_counterexample :
    (tick ⟨10, 5, false⟩ true initState ⟨none, 1, true⟩).events = [] := by
  decide

/-- C6 (amended): on a failed-query tick a (warning-level status) log
entry is emitted exactly when `int(now) % 300 = 0`, i.e. roughly once
every five minutes, not on each and every failed-query tick; the loop
always proceeds to the next tick. -/
theorem C6_amended_periodic_status_log (cfg : Config) (sb : Bool)
    (s : TrackerState) (now : ℚ) (ok : Bool) :
    (tick cfg sb s ⟨none, now, ok⟩).events =
      if pyInt now % 300 = 0 then [LogEvent.noDbusStatus] else [] := by
  rw [tick_none_eq]

/-- C7: a missing, unreadable or malformed configuration file makes
`load_config` return exactly the full default dictionary —
`idle_minutes = 10` (the spec's `idle_threshold`, 10 minutes),
`simulate_after_minutes = 5` (the spec's `simulate_delay`, 5 minutes),
`simulate_activity = false` (the spec's `simulate_enabled`) — with no
error and no partial merge. -/
theorem C7_defaults_on_bad_config_file :
    load_config .missing = defaultConfigDict ∧
    load_config .unreadable = defaultConfigDict ∧
    load_config .malformed = defaultConfigDict ∧
    dictGet defaultConfigDict "idle_minutes" = some (.num 10) ∧
    dictGet defaultConfigDict "simulate_after_minutes" = some (.num 5) ∧
    dictGet defaultConfigDict "simulate_activity" = some (.bool false) := by
  refine ⟨rfl, rfl, rfl, ?_, ?_, ?_⟩ <;> decide

/-- C8: regardless of which iterations raise and where, every scheduled
tick is processed (a fault never shortens the run — only the end of the
schedule, i.e. the external shutdown, stops it), and any iteration whose
body faulted ends its event list with the `Monitor error` record logged
by the `except` arm at the tick boundary. -/
theorem C8_fault_caught_loop_continues (cfg : Config) (sb : Bool)
    (s : TrackerState) (l : List (TickInput × Option ℕ)) :
    (runTicks cfg sb s l).length = l.length ∧
    ∀ r ∈ runTicks cfg sb s l, r.faulted = true →
      r.events.getLast? = some LogEvent.monitorError := by
  induction l generalizing s with
  | nil => exact ⟨rfl, by simp [runTicks]⟩
  | cons p rest ih =>
    obtain ⟨i, f⟩ := p
    rw [runTicks_cons]
    constructor
    · simp [(ih (runTick cfg sb s i f).state).1]
    · intro r hr hf
      rcases List.mem_cons.mp hr with h | h
      · subst h
        exact runTick_faulted_last cfg sb s i f hf
      · exact (ih (runTick cfg sb s i f).state).2 r h hf

/-- C8 (witness): one scheduled tick that faults at the top of its body
is still processed, and its events end with the `Monitor error` entry. -/
theorem C8_witness :
    (runTicks ⟨10, 5, false⟩ true initState
      [(⟨some true, 0, true⟩, some 0)]).length = 1 ∧
    (TickResult.mk initState [LogEvent.monitorError] [] true).events.getLast?
      = some LogEvent.monitorError :=
  ⟨(C8_fault_caught_loop_continues ⟨10, 5, false⟩ true initState
      [(⟨some true, 0, true⟩, some 0)]).1,
   (C8_fault_caught_loop_continues ⟨10, 5, false⟩ true initState
      [(⟨some true, 0, true⟩, some 0)]).2
      ⟨initState, [LogEvent.monitorError], [], true⟩ (by decide) rfl⟩

/-- C9: with `simulate_activity = false` in the configuration, no run —
whatever the samples, times, fault injections or bus availability —
ever calls `simulate_activity()`. -/
theorem C9_no_simulate_when_disabled (cfg : Config)
    (hn : cfg.simulate_activity = false) (sb : Bool) (s : TrackerState)
    (l : List (TickInput × Option ℕ)) :
    runSims (runTicks cfg sb s l) = [] := by
  induction l generalizing s with
  | nil => rfl
  | cons p rest ih =>
    obtain ⟨i, f⟩ := p
    rw [runTicks_cons, runSims_cons, runTick_sims,
      tickE_sims_of_not_enabled cfg sb s i f hn, ih]
    rfl

/-- C9 (witness): a long continuously-idle schedule under a disabled
configuration produces no simulate calls. -/
theorem C9_witness :
    runSims (runTicks ⟨10, 5, false⟩ true initState
      [(⟨some true, 0, true⟩, none), (⟨some true, 30000, true⟩, none),
       (⟨some true, 60000, true⟩, none)]) = [] :=
  C9_no_simulate_when_disabled ⟨10, 5, false⟩ rfl true initState
    [(⟨some true, 0, true⟩, none), (⟨some true, 30000, true⟩, none),
     (⟨some true, 60000, true⟩, none)]

/-- Per-tick noninterference in `idle_minutes`: the loop body never
reads that configuration field. -/
theorem runTick_config_eq (a b m : ℤ) (sa sb : Bool) (s : TrackerState)
    (i : TickInput) (f : Option ℕ) :
    runTick ⟨a, m, sa⟩ sb s i f = runTick ⟨b, m, sa⟩ sb s i f := rfl

/-- C10: `idle_minutes` is read at startup but never used by the loop:
two configurations that agree on `simulate_after_minutes` and
`simulate_activity` but differ arbitrarily in `idle_minutes` give
identical runs — the same per-tick states, log events and simulate
calls — on every schedule. -/
theorem C10_idle_minutes_noninterference (c1 c2 : Config)
    (hm : c1.simulate_after_minutes = c2.simulate_after_minutes)
    (ha : c1.simulate_activity = c2.simulate_activity)
    (sb : Bool) (s : TrackerState) (l : List (TickInput × Option ℕ)) :
    runTicks c1 sb s l = runTicks c2 sb s l := by
  obtain ⟨a1, m1, b1⟩ := c1
  obtain ⟨a2, m2, b2⟩ := c2
  dsimp at hm ha
  subst hm
  subst ha
  induction l generalizing s with
  | nil => rfl
  | cons p rest ih =>
    obtain ⟨i, f⟩ := p
    rw [runTicks_cons, runTicks_cons, runTick_config_eq a1 a2 m1 b1 sb s i f]
    exact congrArg _ (ih (runTick ⟨a2, m1, b1⟩ sb s i f).state)

/-- C10 (witness): two configurations differing only in `idle_minutes`
(10 vs 999) give the same run on a concrete schedule. -/
theorem C10_witness :
    runTicks ⟨10, 5, true⟩ true initState [(⟨some true, 0, true⟩, none)] =
      runTicks ⟨999, 5, true⟩ true initState
        [(⟨some true, 0, true⟩, none)] :=
  C10_idle_minutes_noninterference ⟨10, 5, true⟩ ⟨999, 5, true⟩ rfl rfl
    true initState [(⟨some true, 0, true⟩, none)]

end Motion
